import Mathlib

/-!
Shallow embedding of the share-lifecycle / access-resolution core of the
QR_project_Express repository (Express + PostgreSQL).

Rows of the persisted tables become Lean structures; each route handler
that the claims reference becomes a pure function from a `Store` (the
database snapshot) and the current time `now : Nat` (seconds) to a result
and an updated `Store`.  SQL `SELECT ... LIMIT 1` over a table with
`ORDER BY created_at DESC` is modelled by `List.find?` over a list kept in
newest-first order (every insert prepends a row whose `created_at` is the
current time).  JavaScript's falsy-empty-string convention for optional
request fields is modelled by `""` (for plain string parameters) or
`Option` (for nullable SQL parameters), as noted at each definition.
-/

namespace QRDocs

/-- Row of the `users` table (the columns the share/OTP logic reads). -/
structure User where
  user_id : Nat
  email : String
deriving DecidableEq

/-- Row of the `documents` table (the columns the access logic reads). -/
structure Document where
  document_id : Nat
  owner_user_id : Nat
deriving DecidableEq

/-- Row of the `shares` table. -/
structure Share where
  share_id : Nat
  share_token : String
  document_id : Nat
  from_user_id : Nat
  to_user_id : Option Nat
  to_user_email : Option String
  access : String
  expiry_time : Option Nat
  is_revoked : Bool
  revoked_at : Option Nat
  created_at : Nat
deriving DecidableEq

/-- Row of the `otp_verifications` table. -/
structure OtpRow where
  otp_id : Nat
  user_id : Nat
  share_id : Nat
  otp_code : String
  expiry_time : Nat
  is_verified : Bool
  created_at : Nat
deriving DecidableEq

/-- Row of the append-only `access_logs` table. -/
structure LogEntry where
  share_id : Option Nat
  document_id : Nat
  viewer_user_id : Option Nat
  action : String
deriving DecidableEq

/-- Database snapshot.  Lists are newest-first; `nextShareId` / `nextOtpId`
model the id sequences of the `shares` / `otp_verifications` tables. -/
structure Store where
  users : List User
  documents : List Document
  shares : List Share
  otps : List OtpRow
  logs : List LogEntry
  nextShareId : Nat
  nextOtpId : Nat
deriving DecidableEq

/-- Executable model of JS `String.prototype.toLowerCase` (ASCII case
folding, which is all the stored emails use). -/
def jsLower (s : String) : String := String.mk (s.toList.map Char.toLower)

/-- Executable model of JS `String.prototype.trim`: strip leading and
trailing whitespace. -/
def jsTrim (s : String) : String :=
  String.mk (((s.toList.dropWhile Char.isWhitespace).reverse.dropWhile Char.isWhitespace).reverse)

/-- The DB generates an opaque unique `share_token` (uuid default) for each
inserted share; modelled as an injective rendering of the fresh row id. -/
def mkToken (n : Nat) : String := "tok-" ++ toString n

/-- Embeds the expiry validation `new Date(expiry_time) <= new Date()` run
on a supplied (non-null) expiry value: true when it is not strictly in the
future. -/
def expiryNotFuture (e : Option Nat) (now : Nat) : Bool :=
  match e with
  | none => false
  | some t => t ≤ now

/-- SQL lookup `WHERE LOWER(email)=LOWER($1) LIMIT 1` over `users`. -/
def findUserByEmail (users : List User) (q : String) : Option User :=
  users.find? (fun u => jsLower u.email == jsLower q)

/-- Embeds `sh.expiry_time && new Date(sh.expiry_time) <= new Date()`:
a share with an expiry at or before `now` is expired. -/
def shareExpiredLe (sh : Share) (now : Nat) : Bool :=
  match sh.expiry_time with
  | none => false
  | some t => t ≤ now

/-- Embeds `sh.expiry_time && dayjs(sh.expiry_time).isBefore(dayjs())`
(used by `canAccess` in utils/access.js): strict `<` comparison. -/
def shareExpiredLt (sh : Share) (now : Nat) : Bool :=
  match sh.expiry_time with
  | none => false
  | some t => t < now

/-- Recipient-binding check shared by resolveAccess / otp send
(routes/documents.routes.js lines 126-130, routes/shares.routes.js lines
441-447): mismatch by bound `to_user_id` when set, otherwise by
case-insensitive comparison with a bound `to_user_email`. -/
def recipientMismatch (sh : Share) (u : User) : Bool :=
  match sh.to_user_id with
  | some tid => tid != u.user_id
  | none =>
    match sh.to_user_email with
    | some e => jsLower e != jsLower u.email
    | none => false

/-- SQL query of routes/documents.routes.js lines 133-141: a verified,
unexpired OTP row exists for (share, user). -/
def hasVerifiedOtp (otps : List OtpRow) (sid uid now : Nat) : Bool :=
  otps.any (fun o =>
    o.share_id == sid && o.user_id == uid && o.is_verified && now < o.expiry_time)

/-- SQL condition of the trigger/caller in routes/shares.routes.js lines
449-487: an unverified, unexpired OTP row exists for (user, share). -/
def hasActiveOtp (otps : List OtpRow) (uid sid now : Nat) : Bool :=
  otps.any (fun o =>
    o.user_id == uid && o.share_id == sid && !o.is_verified && now < o.expiry_time)

/-- Result of `resolveAccess` in routes/documents.routes.js: the `mode`
field of the returned object (`null` / owner / public / private). -/
inductive AccessMode
  | noAccess
  | owner (userId : Nat)
  | publicShare (share : Share)
  | privateShare (userId : Nat) (share : Share)
deriving DecidableEq

/-- Embeds `resolveAccess(req, document_id)` of routes/documents.routes.js
lines 79-152.  `authUser` is the JWT identity attached by optionalAuth
(present exactly when a valid bearer token came with the request); `token`
is the `?token=`/`?share_token=` query value (`""` when absent, as in the
source's falsy check); `claimedEmailHdr` is the `x-user-email` header
(`""` when absent). -/
def resolveAccess (st : Store) (now : Nat) (authUser : Option Nat)
    (token : String) (claimedEmailHdr : String) (document_id : Nat) : AccessMode :=
  if token ≠ "" then
    match st.shares.find? (fun s => s.share_token == token) with
    | none => .noAccess
    | some share =>
      if share.document_id != document_id then .noAccess
      else if share.is_revoked then .noAccess
      else if shareExpiredLe share now then .noAccess
      else if share.access == "public" then .publicShare share
      else
        let claimedEmail := jsLower (jsTrim claimedEmailHdr)
        if claimedEmail == "" then .noAccess
        else
          match findUserByEmail st.users claimedEmail with
          | none => .noAccess
          | some u =>
            if recipientMismatch share u then .noAccess
            else if hasVerifiedOtp st.otps share.share_id u.user_id now then
              .privateShare u.user_id share
            else .noAccess
  else
    match authUser with
    | some uid =>
      match st.documents.find? (fun d => d.document_id == document_id) with
      | some d => if d.owner_user_id == uid then .owner uid else .noAccess
      | none => .noAccess
    | none => .noAccess

/-- Outcome of the view/download routes (the part the claims are about:
which requests are allowed, which error is returned otherwise). -/
inductive RouteResult
  | notFound
  | denied (msg : String)
  | allowed (mode : AccessMode)
deriving DecidableEq

/-- Embeds `GET /documents/view/:document_id` (routes/documents.routes.js
lines 261-291): resolveAccess, then the explicit owner fallback, then the
authorization gate.  File-streaming mechanics are outside the model. -/
def viewDocument (st : Store) (now : Nat) (authUser : Option Nat)
    (token : String) (claimedEmailHdr : String) (document_id : Nat) : RouteResult :=
  match st.documents.find? (fun d => d.document_id == document_id) with
  | none => .notFound
  | some d =>
    let access := resolveAccess st now authUser token claimedEmailHdr document_id
    let access :=
      if access = .noAccess then
        match authUser with
        | some uid => if uid == d.owner_user_id then .owner uid else .noAccess
        | none => .noAccess
      else access
    if access = .noAccess then .denied "Not authorized to view this document"
    else .allowed access

/-- Embeds `GET /documents/download/:document_id`
(routes/documents.routes.js lines 294-323): like view, but a resolved
`public` mode is refused with the public-view-only error. -/
def downloadDocument (st : Store) (now : Nat) (authUser : Option Nat)
    (token : String) (claimedEmailHdr : String) (document_id : Nat) : RouteResult :=
  match st.documents.find? (fun d => d.document_id == document_id) with
  | none => .notFound
  | some d =>
    let access := resolveAccess st now authUser token claimedEmailHdr document_id
    let access :=
      if access = .noAccess then
        match authUser with
        | some uid => if uid == d.owner_user_id then .owner uid else .noAccess
        | none => .noAccess
      else access
    if access = .noAccess then .denied "Not authorized to download"
    else
      match access with
      | .publicShare _ => .denied "Public shares are view-only"
      | m => .allowed m

/-- Result of `canAccess` in utils/access.js (kept in src/utils/mailer.js):
either ok (with the resolved viewer for private shares) or an error
message. -/
inductive CanAccessResult
  | ok (viewerUserId : Option Nat)
  | err (msg : String)
deriving DecidableEq

/-- SQL lookup of utils/access.js lines 58-68:
`($1 IS NOT NULL AND s.share_id=$1) OR ($2 IS NOT NULL AND s.share_token=$2)`. -/
def canAccessLookup (shares : List Share) (share_id : Option Nat)
    (share_token : Option String) : Option Share :=
  shares.find? (fun s =>
    (match share_id with | some i => s.share_id == i | none => false) ||
    (match share_token with | some t => s.share_token == t | none => false))

/-- Embeds `canAccess({document_id, share_id, share_token, wantDownload,
user_email})` of utils/access.js lines 55-118.  `user_email = none` models
a missing/empty email (JS falsy check); note the user lookup here is
case-sensitive (`WHERE email = $1`), unlike the other handlers. -/
def canAccess (st : Store) (now : Nat) (document_id : Nat)
    (share_id : Option Nat) (share_token : Option String)
    (wantDownload : Bool) (user_email : Option String) : CanAccessResult :=
  if share_id = none ∧ share_token = none then .err "Missing share reference"
  else
    match canAccessLookup st.shares share_id share_token with
    | none => .err "Share not found"
    | some sh =>
      if sh.document_id != document_id then .err "Share/document mismatch"
      else if sh.is_revoked then .err "Share revoked"
      else if shareExpiredLt sh now then .err "Share expired"
      else if sh.access == "public" then
        if wantDownload then .err "Public shares are view-only" else .ok none
      else
        match user_email with
        | none => .err "Email required for private share"
        | some em =>
          match st.users.find? (fun u => u.email == jsTrim em) with
          | none => .err "User must register first"
          | some viewer =>
            if (match sh.to_user_id with
                | some tid => tid != viewer.user_id
                | none => false) then .err "Not the intended recipient"
            else if (sh.to_user_id = none &&
                match sh.to_user_email with
                | some e => jsLower e != jsLower em
                | none => false) then .err "Not the intended recipient"
            else if hasVerifiedOtp st.otps sh.share_id viewer.user_id now then
              .ok (some viewer.user_id)
            else .err "OTP verification required"

/-- Body of `POST /shares` after JS coercion: `document_id` (`none` models
the falsy-empty check), trimmed `to_email` (`""` = absent), nullable
`expiry_time`, lowercased nullable `access`. -/
structure CreateReq where
  document_id : Option Nat
  to_email : String
  expiry_time : Option Nat
  access : Option String
deriving DecidableEq

/-- Outcome of the share-create handlers (both variants). -/
inductive CreateResult
  | errDocIdRequired
  | errNotOwned
  | errInvalidExpiry
  | errInvalidEmail
  | errPrivateNeedsEmail
  | errRecipientUnregistered
  | created (sh : Share)
  | reused (sh : Share)
deriving DecidableEq

/-- Embeds `POST /shares` of routes/shares.routes.js lines 24-105 (the
variant without the idempotent lookup): ownership check, expiry
validation, recipient resolution, access-mode selection, insert. -/
def createShare (st : Store) (now : Nat) (creator : Nat) (req : CreateReq) :
    CreateResult × Store :=
  match req.document_id with
  | none => (.errDocIdRequired, st)
  | some did =>
    if !(st.documents.any (fun d => d.document_id == did && d.owner_user_id == creator)) then
      (.errNotOwned, st)
    else if expiryNotFuture req.expiry_time now then
      (.errInvalidExpiry, st)
    else
      let to_email := jsTrim req.to_email
      let to_user_id :=
        if to_email ≠ "" then (findUserByEmail st.users to_email).map (fun u => u.user_id)
        else none
      let insertWith := fun (finalAccess : String) =>
        let sh : Share := {
          share_id := st.nextShareId
          share_token := mkToken st.nextShareId
          document_id := did
          from_user_id := creator
          to_user_id := to_user_id
          to_user_email :=
            if to_user_id.isSome then none
            else if to_email = "" then none else some to_email
          access := finalAccess
          expiry_time := req.expiry_time
          is_revoked := false
          revoked_at := none
          created_at := now }
        (CreateResult.created sh,
         { st with shares := sh :: st.shares, nextShareId := st.nextShareId + 1 })
      match req.access with
      | some "private" =>
        if to_email = "" then (.errPrivateNeedsEmail, st)
        else if to_user_id.isNone then (.errRecipientUnregistered, st)
        else insertWith "private"
      | some "public" => insertWith "public"
      | _ => insertWith (if to_user_id.isSome then "private" else "public")

/-- Embeds `COALESCE(LOWER(x), '')` on a nullable text column. -/
def lowerCoalesce : Option String → String
  | none => ""
  | some e => jsLower e

/-- Embeds the email well-formedness regex of src/unnamed/part_014 line 681,
`^[^@\s]+@[^@\s]+\.[^@\s]+$` applied to the trimmed string: one `@`, no
whitespace, nonempty local part, and a dot in the domain with at least one
character on each side. -/
def isEmail (s : String) : Bool :=
  let cs := (jsTrim s).toList
  if cs.any (fun c => c.isWhitespace) then false
  else
    match cs.splitOn '@' with
    | [a, b] =>
      !a.isEmpty &&
        (List.range b.length).any (fun p =>
          b.getD p ' ' == '.' && 1 ≤ p && p + 2 ≤ b.length)
    | _ => false

/-- Embeds `POST /shares` of src/unnamed/part_014 lines 706-819 (the
idempotent variant): same validation plus an email-format check, then the
active-share lookup (lines 758-794) returning the newest matching active
share as `reused`, else the insert (lines 796-819, which also nulls
`to_user_email` for public shares). -/
def createShareIdem (st : Store) (now : Nat) (creator : Nat) (req : CreateReq) :
    CreateResult × Store :=
  match req.document_id with
  | none => (.errDocIdRequired, st)
  | some did =>
    if !(st.documents.any (fun d => d.document_id == did && d.owner_user_id == creator)) then
      (.errNotOwned, st)
    else if expiryNotFuture req.expiry_time now then
      (.errInvalidExpiry, st)
    else
      let to_email := jsTrim req.to_email
      if to_email ≠ "" && !(isEmail to_email) then (.errInvalidEmail, st)
      else
        let to_user_id :=
          if to_email ≠ "" then (findUserByEmail st.users to_email).map (fun u => u.user_id)
          else none
        let finishWith := fun (finalAccess : String) =>
          let param5 : Option String :=
            if finalAccess == "public" then none
            else if to_email = "" then none else some to_email
          match st.shares.find? (fun s =>
              s.document_id == did && s.from_user_id == creator &&
              s.access == finalAccess && !s.is_revoked &&
              (match s.expiry_time with | none => true | some t => now < t) &&
              (match to_user_id with
               | some tid => s.to_user_id == some tid
               | none => lowerCoalesce s.to_user_email == lowerCoalesce param5)) with
          | some sh => (CreateResult.reused sh, st)
          | none =>
            let sh : Share := {
              share_id := st.nextShareId
              share_token := mkToken st.nextShareId
              document_id := did
              from_user_id := creator
              to_user_id := to_user_id
              to_user_email :=
                if to_user_id.isSome then none
                else if finalAccess == "public" then none
                else if to_email = "" then none else some to_email
              access := finalAccess
              expiry_time := req.expiry_time
              is_revoked := false
              revoked_at := none
              created_at := now }
            (CreateResult.created sh,
             { st with shares := sh :: st.shares, nextShareId := st.nextShareId + 1 })
        match req.access with
        | some "private" =>
          if to_email = "" then (.errPrivateNeedsEmail, st)
          else if to_user_id.isNone then (.errRecipientUnregistered, st)
          else finishWith "private"
        | some "public" => finishWith "public"
        | _ => finishWith (if to_user_id.isSome then "private" else "public")

/-- Outcome of the owner-only share mutations. -/
inductive SimpleResult
  | ok
  | notFound
deriving DecidableEq

/-- Embeds `POST /shares/:share_id/revoke` (routes/shares.routes.js lines
253-278): `UPDATE shares SET is_revoked=TRUE, revoked_at=now() WHERE
share_id=$1 AND from_user_id=$2`, 404 when no row matched, else an audit
log append. -/
def revokeShare (st : Store) (now : Nat) (requester : Nat) (share_id : Nat) :
    SimpleResult × Store :=
  match st.shares.find? (fun s => s.share_id == share_id && s.from_user_id == requester) with
  | none => (.notFound, st)
  | some sel =>
    let shares := st.shares.map (fun s =>
      if s.share_id == share_id && s.from_user_id == requester then
        { s with is_revoked := true, revoked_at := some now }
      else s)
    let entry : LogEntry := { share_id := some share_id, document_id := sel.document_id,
                              viewer_user_id := some requester, action := "share_revoke" }
    (.ok, { st with shares := shares, logs := entry :: st.logs })

/-- Outcome of `PATCH /shares/:share_id/expiry`. -/
inductive ExpiryResult
  | errInvalidExpiry
  | errNotFound
  | ok (share_id : Nat) (expiry_time : Option Nat)
deriving DecidableEq

/-- Embeds `PATCH /shares/:share_id/expiry` (routes/shares.routes.js lines
355-386): reject a non-null expiry at or before now, 404 unless the
requester owns the share, then `UPDATE shares SET expiry_time=$1 WHERE
share_id=$2` (a null body value clears the expiry). -/
def setShareExpiry (st : Store) (now : Nat) (requester : Nat) (share_id : Nat)
    (expiry_time : Option Nat) : ExpiryResult × Store :=
  if expiryNotFuture expiry_time now then
    (.errInvalidExpiry, st)
  else
    match st.shares.find? (fun s => s.share_id == share_id && s.from_user_id == requester) with
    | none => (.errNotFound, st)
    | some sel =>
      let shares := st.shares.map (fun s =>
        if s.share_id == share_id then { s with expiry_time := expiry_time } else s)
      let entry : LogEntry := { share_id := some share_id, document_id := sel.document_id,
                                viewer_user_id := some requester, action := "share_expiry_update" }
      (.ok share_id expiry_time, { st with shares := shares, logs := entry :: st.logs })

/-- Embeds `POST /shares/:share_id/expire-now` (routes/shares.routes.js
lines 388-413): owner check, then `UPDATE shares SET expiry_time = now()`. -/
def expireShareNow (st : Store) (now : Nat) (requester : Nat) (share_id : Nat) :
    ExpiryResult × Store :=
  match st.shares.find? (fun s => s.share_id == share_id && s.from_user_id == requester) with
  | none => (.errNotFound, st)
  | some sel =>
    let shares := st.shares.map (fun s =>
      if s.share_id == share_id then { s with expiry_time := some now } else s)
    let entry : LogEntry := { share_id := some share_id, document_id := sel.document_id,
                              viewer_user_id := some requester, action := "share_expired_now" }
    (.ok share_id (some now), { st with shares := shares, logs := entry :: st.logs })

/-- Embeds `DELETE /shares/:share_id` (routes/shares.routes.js lines
280-305): owner check, delete unverified OTP rows of the share, delete the
share, append an audit entry. -/
def deleteShare (st : Store) (requester : Nat) (share_id : Nat) :
    SimpleResult × Store :=
  match st.shares.find? (fun s => s.share_id == share_id && s.from_user_id == requester) with
  | none => (.notFound, st)
  | some sel =>
    let otps := st.otps.filter (fun o => !(o.share_id == share_id && !o.is_verified))
    let shares := st.shares.filter (fun s =>
      !(s.share_id == share_id && s.from_user_id == requester))
    let entry : LogEntry := { share_id := some share_id, document_id := sel.document_id,
                              viewer_user_id := some requester, action := "share_delete" }
    (.ok, { st with otps := otps, shares := shares, logs := entry :: st.logs })

/-- Outcome of `POST /shares/:share_id/otp/send`. -/
inductive OtpSendResult
  | errEmailRequired
  | errShareNotFound
  | errShareRevoked
  | errNotPrivate
  | errShareExpired
  | errUnregistered
  | errWrongRecipient
  | errDuplicateActive
  | sent (otp_id : Nat) (expires_at : Nat)
deriving DecidableEq

/-- Embeds `POST /shares/:share_id/otp/send` (routes/shares.routes.js lines
415-487): share state checks, registered-recipient check, recipient-binding
check, then the OTP insert.  `otpRand` stands for the `Math.random()` draw
so the generated code is `100000 + otpRand % 900000`; `ttlMins` is
`OTP_TTL_MIN` (time modelled in seconds).

Duplicate-active handling is modelled from the spec: the database trigger
`prevent_duplicate_active_otp` is not under src/ — only its callers are
(the insert comment at line 454 and the catch of its "only one active"
error at lines 478-483) — so the insert is modelled as rejected with
`errDuplicateActive` whenever an unverified, unexpired OTP row for the
same (user, share) pair already exists, leaving the store unchanged. -/
def otpSend (st : Store) (now : Nat) (share_id : Nat) (emailRaw : String)
    (otpRand : Nat) (ttlMins : Nat) : OtpSendResult × Store :=
  let email := jsLower (jsTrim emailRaw)
  if email = "" then (.errEmailRequired, st)
  else
    match st.shares.find? (fun s => s.share_id == share_id) with
    | none => (.errShareNotFound, st)
    | some sh =>
      if sh.is_revoked then (.errShareRevoked, st)
      else if sh.access != "private" then (.errNotPrivate, st)
      else if shareExpiredLe sh now then (.errShareExpired, st)
      else
        match findUserByEmail st.users email with
        | none => (.errUnregistered, st)
        | some user =>
          if (match sh.to_user_id with
              | some tid => tid != user.user_id
              | none => false) then (.errWrongRecipient, st)
          else if (sh.to_user_id = none &&
              match sh.to_user_email with
              | some e => jsLower e != jsLower user.email
              | none => false) then (.errWrongRecipient, st)
          else if hasActiveOtp st.otps user.user_id share_id now then
            (.errDuplicateActive, st)
          else
            let code := toString (100000 + otpRand % 900000)
            let row : OtpRow := {
              otp_id := st.nextOtpId
              user_id := user.user_id
              share_id := share_id
              otp_code := code
              expiry_time := now + ttlMins * 60
              is_verified := false
              created_at := now }
            let entry : LogEntry := { share_id := some share_id, document_id := sh.document_id,
                                      viewer_user_id := some user.user_id, action := "otp_request" }
            (.sent row.otp_id row.expiry_time,
             { st with otps := row :: st.otps, nextOtpId := st.nextOtpId + 1, logs := entry :: st.logs })

/-- Outcome of `POST /shares/:share_id/otp/verify`. -/
inductive OtpVerifyResult
  | errMissing
  | errUnregistered
  | errInvalidOrExpired
  | ok
deriving DecidableEq

/-- Embeds `POST /shares/:share_id/otp/verify` (routes/shares.routes.js
lines 491-538): resolves the user, looks up the newest unverified,
unexpired OTP row with the exact code for (share, user), marks it verified,
and appends an audit row (via `INSERT .. SELECT document_id FROM shares`,
which inserts nothing when the share row is absent).  The handler never
reads the share's revoked/expired state. -/
def otpVerify (st : Store) (now : Nat) (share_id : Nat)
    (emailRaw otpRaw : String) : OtpVerifyResult × Store :=
  let email := jsLower (jsTrim emailRaw)
  let otp := jsTrim otpRaw
  if email = "" || otp = "" then (.errMissing, st)
  else
    match findUserByEmail st.users email with
    | none => (.errUnregistered, st)
    | some u =>
      match st.otps.find? (fun o =>
          o.share_id == share_id && o.user_id == u.user_id &&
          !o.is_verified && now < o.expiry_time && o.otp_code == otp) with
      | none => (.errInvalidOrExpired, st)
      | some row =>
        let otps := st.otps.map (fun o =>
          if o.otp_id == row.otp_id then { o with is_verified := true } else o)
        let logs :=
          match st.shares.find? (fun s => s.share_id == share_id) with
          | some sh =>
            ({ share_id := some share_id, document_id := sh.document_id,
               viewer_user_id := some u.user_id, action := "otp_verify" } : LogEntry) :: st.logs
          | none => st.logs
        (.ok, { st with otps := otps, logs := logs })


/-! ### Concrete fixtures used by counterexamples and witnesses -/

/-- Fixture users: the document owner and two registered recipients. -/
def fixUsers : List User := [⟨1, "own@x.com"⟩, ⟨2, "alice@x.com"⟩, ⟨3, "carol@x.com"⟩]

/-- Fixture document 10, owned by user 1. -/
def fixDocs : List Document := [⟨10, 1⟩]

/-- An active public share of document 10 with no recipient binding. -/
def fixPub : Share :=
  { share_id := 100, share_token := "tokpub", document_id := 10, from_user_id := 1,
    to_user_id := none, to_user_email := none, access := "public", expiry_time := none,
    is_revoked := false, revoked_at := none, created_at := 1 }

/-- An active private share of document 10 bound to registered user 2. -/
def fixPriv : Share :=
  { share_id := 200, share_token := "tokpriv", document_id := 10, from_user_id := 1,
    to_user_id := some 2, to_user_email := none, access := "private", expiry_time := none,
    is_revoked := false, revoked_at := none, created_at := 1 }

/-- A revoked public share of document 10. -/
def fixRev : Share :=
  { share_id := 300, share_token := "tokrev", document_id := 10, from_user_id := 1,
    to_user_id := none, to_user_email := none, access := "public", expiry_time := none,
    is_revoked := true, revoked_at := some 2, created_at := 1 }

/-- A revoked private share of document 10 bound to registered user 2. -/
def fixRevPriv : Share :=
  { share_id := 400, share_token := "tokrevpriv", document_id := 10, from_user_id := 1,
    to_user_id := some 2, to_user_email := none, access := "private", expiry_time := none,
    is_revoked := true, revoked_at := some 2, created_at := 1 }

/-- An unverified, unexpired OTP challenge for user 2 on share 200. -/
def fixOtpActive : OtpRow :=
  { otp_id := 5, user_id := 2, share_id := 200, otp_code := "111111",
    expiry_time := 1000, is_verified := false, created_at := 1 }

/-- An unverified, unexpired OTP challenge for user 2 on the revoked share 400. -/
def fixOtpActiveRev : OtpRow :=
  { otp_id := 6, user_id := 2, share_id := 400, otp_code := "222222",
    expiry_time := 1000, is_verified := false, created_at := 1 }

/-- Store with one active public share. -/
def fixStPub : Store :=
  { users := fixUsers, documents := fixDocs, shares := [fixPub], otps := [], logs := [],
    nextShareId := 500, nextOtpId := 7 }

/-- Store with one active private share bound to user 2. -/
def fixStPriv : Store :=
  { users := fixUsers, documents := fixDocs, shares := [fixPriv], otps := [], logs := [],
    nextShareId := 500, nextOtpId := 7 }

/-- Store with one revoked public share. -/
def fixStRev : Store :=
  { users := fixUsers, documents := fixDocs, shares := [fixRev], otps := [], logs := [],
    nextShareId := 500, nextOtpId := 7 }

/-- Store with a private share that already has an active OTP challenge. -/
def fixStC4 : Store :=
  { users := fixUsers, documents := fixDocs, shares := [fixPriv], otps := [fixOtpActive],
    logs := [], nextShareId := 500, nextOtpId := 7 }

/-- Store with a revoked private share and an active OTP challenge for it. -/
def fixStC10 : Store :=
  { users := fixUsers, documents := fixDocs, shares := [fixRevPriv], otps := [fixOtpActiveRev],
    logs := [], nextShareId := 500, nextOtpId := 7 }

/-- Create request: public share of document 10 to a registered email. -/
def fixReqPubReg : CreateReq :=
  { document_id := some 10, to_email := "alice@x.com", expiry_time := none,
    access := some "public" }

/-- Create request: default access, registered recipient, expiry 50. -/
def fixReqDefault : CreateReq :=
  { document_id := some 10, to_email := "alice@x.com", expiry_time := some 50,
    access := none }



/-- The share record produced by `createShare fixStPriv 5 1 fixReqDefault`
(default access, registered recipient, expiry 50). -/
def fixC6Created : Share :=
  { share_id := 500, share_token := "tok-500", document_id := 10, from_user_id := 1,
    to_user_id := some 2, to_user_email := none, access := "private", expiry_time := some 50,
    is_revoked := false, revoked_at := none, created_at := 5 }

/-- The public share record produced by creating with access `public` and
the registered email `alice@x.com`: it still carries `to_user_id = 2`. -/
def fixC6PubBound : Share :=
  { share_id := 500, share_token := "tok-500", document_id := 10, from_user_id := 1,
    to_user_id := some 2, to_user_email := none, access := "public", expiry_time := none,
    is_revoked := false, revoked_at := none, created_at := 5 }

/-- A second active private share of document 10 to user 2 (id 210). -/
def fixPriv2 : Share :=
  { share_id := 210, share_token := "tokpriv2", document_id := 10, from_user_id := 1,
    to_user_id := some 2, to_user_email := none, access := "private", expiry_time := none,
    is_revoked := false, revoked_at := none, created_at := 1 }

/-- A private share bound only by pending email `bob@x.com` (id 220). -/
def fixPrivEmail : Share :=
  { share_id := 220, share_token := "tokpe", document_id := 10, from_user_id := 1,
    to_user_id := none, to_user_email := some "bob@x.com", access := "private",
    expiry_time := none, is_revoked := false, revoked_at := none, created_at := 1 }

/-- A verified, unexpired OTP challenge for user 2 on share 210 (not 200). -/
def fixOtpVerified210 : OtpRow :=
  { otp_id := 8, user_id := 2, share_id := 210, otp_code := "333333",
    expiry_time := 1000, is_verified := true, created_at := 1 }

/-- Store for the recipient-binding scenarios: three private shares, and
user 2 holds a verified OTP only for share 210. -/
def fixStC7 : Store :=
  { users := fixUsers, documents := fixDocs,
    shares := [fixPriv, fixPriv2, fixPrivEmail], otps := [fixOtpVerified210],
    logs := [], nextShareId := 500, nextOtpId := 9 }

/-! ### Derived predicates used in the statements -/

/-- Well-formedness of the `shares` table maintained by the database: row
ids are unique and below the id sequence value. -/
def SharesWF (st : Store) : Prop :=
  (st.shares.map Share.share_id).Nodup ∧ ∀ sh ∈ st.shares, sh.share_id < st.nextShareId

/-- Between two snapshots of the `shares` table, no row went from revoked
back to unrevoked: any row of the new snapshot carrying the id of a
revoked old row is still revoked (rows may also disappear). -/
def revokedPreservedL (old new : List Share) : Prop :=
  ∀ sh ∈ old, sh.is_revoked = true →
    ∀ sh' ∈ new, sh'.share_id = sh.share_id → sh'.is_revoked = true

/-- An OTP challenge row that is active at time `t`: unverified and not yet
expired. -/
def activeOtp (o : OtpRow) (t : Nat) : Bool := !o.is_verified && t < o.expiry_time

/-- At most one active OTP challenge per (user, share) pair at time `t`:
no two distinct rows of the table are both active for the same pair. -/
def otpsAtMostOneActive (otps : List OtpRow) (t : Nat) : Prop :=
  otps.Pairwise (fun a b =>
    ¬(activeOtp a t = true ∧ activeOtp b t = true ∧
      a.user_id = b.user_id ∧ a.share_id = b.share_id))

/-! ### Helper lemmas -/

/-- A share whose expiry (if any) is strictly later than `now` is not
expired under the non-strict (`<=`) check. -/
theorem shareExpiredLe_eq_false (sh : Share) (now : Nat)
    (h : ∀ t, sh.expiry_time = some t → now < t) :
    shareExpiredLe sh now = false := by
  unfold shareExpiredLe
  cases he : sh.expiry_time with
  | none => rfl
  | some t =>
    have ht := h t he
    simp
    omega

/-- A share whose expiry (if any) is strictly later than `now` is not
expired under the strict (`<`) check. -/
theorem shareExpiredLt_eq_false (sh : Share) (now : Nat)
    (h : ∀ t, sh.expiry_time = some t → now < t) :
    shareExpiredLt sh now = false := by
  unfold shareExpiredLt
  cases he : sh.expiry_time with
  | none => rfl
  | some t =>
    have ht := h t he
    simp
    omega


/-- C1: for every active public share, access resolution allows a plain
view but refuses a download with the public-view-only error, regardless of
viewer identity: `canAccess` (utils/access.js) returns the view-only error
exactly when `wantDownload` is set, and the download route
(routes/documents.routes.js lines 294-323) turns the resolved public mode
into the same refusal while the view route allows it. -/
theorem c1_public_share_view_only
    (st : Store) (now : Nat) (sh : Share) (d : Document) (tok : String)
    (authUser : Option Nat) (em : String)
    (sid : Option Nat) (stok : Option String) (uem : Option String)
    (htok : tok ≠ "")
    (hfind : st.shares.find? (fun s => s.share_token == tok) = some sh)
    (hdoc : st.documents.find? (fun x => x.document_id == sh.document_id) = some d)
    (href : ¬(sid = none ∧ stok = none))
    (hlook : canAccessLookup st.shares sid stok = some sh)
    (hpub : sh.access = "public")
    (hrev : sh.is_revoked = false)
    (hexp : ∀ t, sh.expiry_time = some t → now < t) :
    canAccess st now sh.document_id sid stok true uem = .err "Public shares are view-only" ∧
    canAccess st now sh.document_id sid stok false uem = .ok none ∧
    resolveAccess st now authUser tok em sh.document_id = .publicShare sh ∧
    downloadDocument st now authUser tok em sh.document_id =
      .denied "Public shares are view-only" ∧
    viewDocument st now authUser tok em sh.document_id = .allowed (.publicShare sh) := by
  have hle := shareExpiredLe_eq_false sh now hexp
  have hlt := shareExpiredLt_eq_false sh now hexp
  have hca : ∀ wd, canAccess st now sh.document_id sid stok wd uem =
      (if wd then .err "Public shares are view-only" else .ok none) := by
    intro wd
    unfold canAccess
    rw [if_neg href, hlook]
    simp [hrev, hlt, hpub]
  have hra : resolveAccess st now authUser tok em sh.document_id = .publicShare sh := by
    unfold resolveAccess
    rw [if_pos htok, hfind]
    simp [hrev, hle, hpub]
  refine ⟨by simpa using hca true, by simpa using hca false, hra, ?_, ?_⟩
  · unfold downloadDocument
    rw [hdoc, hra]
    simp
  · unfold viewDocument
    rw [hdoc, hra]
    simp

/-- Witness for C1 at a concrete store: an active public share of document
10 looked up by its token. -/
theorem c1_witness :
    canAccess fixStPub 5 10 none (some "tokpub") true none =
      .err "Public shares are view-only" ∧
    canAccess fixStPub 5 10 none (some "tokpub") false none = .ok none ∧
    resolveAccess fixStPub 5 (some 3) "tokpub" "carol@x.com" 10 = .publicShare fixPub ∧
    downloadDocument fixStPub 5 (some 3) "tokpub" "carol@x.com" 10 =
      .denied "Public shares are view-only" ∧
    viewDocument fixStPub 5 (some 3) "tokpub" "carol@x.com" 10 =
      .allowed (.publicShare fixPub) :=
  c1_public_share_view_only fixStPub 5 fixPub ⟨10, 1⟩ "tokpub" (some 3) "carol@x.com"
    none (some "tokpub") none (by decide) (by decide) (by decide)
    (by simp) (by decide) (by decide) (by decide) (by intro t ht; cases ht)


/-- Two rows of a table with nodup ids and the same id are the same row. -/
theorem mem_eq_of_nodup_ids {l : List Share} (h : (l.map Share.share_id).Nodup)
    {a b : Share} (ha : a ∈ l) (hb : b ∈ l) (hid : a.share_id = b.share_id) : a = b :=
  List.inj_on_of_nodup_map h ha hb hid

/-- Leaving the table unchanged never un-revokes a row. -/
theorem revokedPreservedL_self {l : List Share} (h : (l.map Share.share_id).Nodup) :
    revokedPreservedL l l := by
  intro sh hsh hrev sh' hsh' hid
  rw [mem_eq_of_nodup_ids h hsh' hsh hid]
  exact hrev

/-- Prepending a row with a fresh id never un-revokes a row. -/
theorem revokedPreservedL_cons {l : List Share} (h : (l.map Share.share_id).Nodup)
    (new : Share) (hnew : ∀ sh ∈ l, sh.share_id ≠ new.share_id) :
    revokedPreservedL l (new :: l) := by
  intro sh hsh hrev sh' hsh' hid
  rcases List.mem_cons.mp hsh' with hh | hh
  · subst hh
    exact absurd hid.symm (hnew sh hsh)
  · rw [mem_eq_of_nodup_ids h hh hsh hid]
    exact hrev

/-- Mapping an id-preserving, revocation-preserving update over the table
never un-revokes a row. -/
theorem revokedPreservedL_map {l : List Share} (h : (l.map Share.share_id).Nodup)
    (f : Share → Share) (hid : ∀ s, (f s).share_id = s.share_id)
    (hrev : ∀ s, s.is_revoked = true → (f s).is_revoked = true) :
    revokedPreservedL l (l.map f) := by
  intro sh hsh hrevd sh' hsh' hids
  rcases List.mem_map.mp hsh' with ⟨a, ha, rfl⟩
  have : a = sh := mem_eq_of_nodup_ids h ha hsh (by rw [← hid a]; exact hids)
  subst this
  exact hrev a hrevd

/-- Removing rows never un-revokes a row. -/
theorem revokedPreservedL_filter {l : List Share} (h : (l.map Share.share_id).Nodup)
    (p : Share → Bool) : revokedPreservedL l (l.filter p) := by
  intro sh hsh hrev sh' hsh' hid
  rw [mem_eq_of_nodup_ids h (List.mem_of_mem_filter hsh') hsh hid]
  exact hrev

/-- The OTP-send handler never writes to the `shares` table. -/
theorem otpSend_shares_eq (st : Store) (now sid : Nat) (em : String) (r ttl : Nat) :
    (otpSend st now sid em r ttl).2.shares = st.shares := by
  unfold otpSend
  dsimp only
  repeat' split
  all_goals rfl

/-- The OTP-verify handler never writes to the `shares` table. -/
theorem otpVerify_shares_eq (st : Store) (now sid : Nat) (em code : String) :
    (otpVerify st now sid em code).2.shares = st.shares := by
  unfold otpVerify
  dsimp only
  repeat' split
  all_goals rfl

/-- Share creation (plain variant) either leaves the `shares` table alone
or prepends one fresh row. -/
theorem createShare_shares_cases (st : Store) (now c : Nat) (r : CreateReq) :
    (createShare st now c r).2.shares = st.shares ∨
    ∃ sh : Share, sh.share_id = st.nextShareId ∧
      (createShare st now c r).2.shares = sh :: st.shares := by
  unfold createShare
  dsimp only
  repeat' split
  all_goals first
    | (left; rfl)
    | (right; exact ⟨_, rfl, rfl⟩)

set_option maxHeartbeats 1000000 in
/-- Share creation (idempotent variant) either leaves the `shares` table
alone or prepends one fresh row. -/
theorem createShareIdem_shares_cases (st : Store) (now c : Nat) (r : CreateReq) :
    (createShareIdem st now c r).2.shares = st.shares ∨
    ∃ sh : Share, sh.share_id = st.nextShareId ∧
      (createShareIdem st now c r).2.shares = sh :: st.shares := by
  unfold createShareIdem
  dsimp only
  repeat' split
  all_goals first
    | (left; rfl)
    | (right; exact ⟨_, rfl, rfl⟩)

/-- Revocation either leaves the table alone (404) or maps the targeted
row to its revoked copy. -/
theorem revokeShare_shares_cases (st : Store) (now rq sid : Nat) :
    (revokeShare st now rq sid).2.shares = st.shares ∨
    (revokeShare st now rq sid).2.shares = st.shares.map (fun s =>
      if s.share_id == sid && s.from_user_id == rq then
        { s with is_revoked := true, revoked_at := some now }
      else s) := by
  unfold revokeShare
  split
  · left; rfl
  · right; rfl

/-- Expiry update either leaves the table alone or maps the targeted row
to a copy with the new expiry. -/
theorem setShareExpiry_shares_cases (st : Store) (now rq sid : Nat) (e : Option Nat) :
    (setShareExpiry st now rq sid e).2.shares = st.shares ∨
    (setShareExpiry st now rq sid e).2.shares = st.shares.map (fun s =>
      if s.share_id == sid then { s with expiry_time := e } else s) := by
  unfold setShareExpiry
  dsimp only
  repeat' split
  all_goals first
    | (left; rfl)
    | (right; rfl)

/-- Expire-now either leaves the table alone or maps the targeted row to a
copy expiring at the current instant. -/
theorem expireShareNow_shares_cases (st : Store) (now rq sid : Nat) :
    (expireShareNow st now rq sid).2.shares = st.shares ∨
    (expireShareNow st now rq sid).2.shares = st.shares.map (fun s =>
      if s.share_id == sid then { s with expiry_time := some now } else s) := by
  unfold expireShareNow
  split
  · left; rfl
  · right; rfl

/-- Deletion either leaves the table alone or filters rows out. -/
theorem deleteShare_shares_cases (st : Store) (rq sid : Nat) :
    (deleteShare st rq sid).2.shares = st.shares ∨
    (deleteShare st rq sid).2.shares = st.shares.filter (fun s =>
      !(s.share_id == sid && s.from_user_id == rq)) := by
  unfold deleteShare
  split
  · left; rfl
  · right; rfl


/-- A share token resolving to a revoked share is denied by resolveAccess,
whatever the viewer identity or target document. -/
theorem resolveAccess_revoked_denies (st : Store) (now : Nat) (au : Option Nat)
    (tok em : String) (did : Nat) (sh : Share)
    (htok : tok ≠ "")
    (hfind : st.shares.find? (fun s => s.share_token == tok) = some sh)
    (hrev : sh.is_revoked = true) :
    resolveAccess st now au tok em did = .noAccess := by
  unfold resolveAccess
  rw [if_pos htok, hfind]
  by_cases hd : (sh.document_id != did) = true
  · simp [hd]
  · simp only [Bool.not_eq_true] at hd
    simp [hd, hrev]

/-- A share reference resolving to a revoked share is never allowed by
canAccess. -/
theorem canAccess_revoked_denies (st : Store) (now did : Nat)
    (sid : Option Nat) (stok : Option String) (wd : Bool) (uem : Option String)
    (sh : Share)
    (hlook : canAccessLookup st.shares sid stok = some sh)
    (hrev : sh.is_revoked = true) :
    ∀ v, canAccess st now did sid stok wd uem ≠ .ok v := by
  intro v
  unfold canAccess
  by_cases h0 : (sid = none ∧ stok = none)
  · rw [if_pos h0]
    simp
  · rw [if_neg h0, hlook]
    by_cases hd : (sh.document_id != did) = true
    · simp [hd]
    · simp only [Bool.not_eq_true] at hd
      simp [hd, hrev]

/-- C2: revocation is monotone and final.  Every embedded mutation of the
shares table (`createShare`, `createShareIdem`, `revokeShare`,
`setShareExpiry`, `expireShareNow`, `deleteShare`, `otpSend`, `otpVerify`)
preserves `revokedPreservedL` (no row ever goes from revoked back to
unrevoked), and both access resolvers deny every request made through a
revoked share, for every viewer, token and time. -/
theorem c2_revocation_monotone_and_final (st : Store) (now : Nat)
    (hwf : SharesWF st) :
    (∀ c r, revokedPreservedL st.shares (createShare st now c r).2.shares) ∧
    (∀ c r, revokedPreservedL st.shares (createShareIdem st now c r).2.shares) ∧
    (∀ rq sid, revokedPreservedL st.shares (revokeShare st now rq sid).2.shares) ∧
    (∀ rq sid e, revokedPreservedL st.shares (setShareExpiry st now rq sid e).2.shares) ∧
    (∀ rq sid, revokedPreservedL st.shares (expireShareNow st now rq sid).2.shares) ∧
    (∀ rq sid, revokedPreservedL st.shares (deleteShare st rq sid).2.shares) ∧
    (∀ sid em r ttl, revokedPreservedL st.shares (otpSend st now sid em r ttl).2.shares) ∧
    (∀ sid em code, revokedPreservedL st.shares (otpVerify st now sid em code).2.shares) ∧
    (∀ tok sh, tok ≠ "" → st.shares.find? (fun s => s.share_token == tok) = some sh →
      sh.is_revoked = true →
      ∀ au em did, resolveAccess st now au tok em did = .noAccess) ∧
    (∀ sid stok sh did wd uem, canAccessLookup st.shares sid stok = some sh →
      sh.is_revoked = true →
      ∀ v, canAccess st now did sid stok wd uem ≠ .ok v) := by
  obtain ⟨hnd, hlt⟩ := hwf
  have hfresh : ∀ new : Share, new.share_id = st.nextShareId →
      ∀ sh ∈ st.shares, sh.share_id ≠ new.share_id := by
    intro new hnew sh hsh
    have := hlt sh hsh
    omega
  refine ⟨?_, ?_, ?_, ?_, ?_, ?_, ?_, ?_, ?_, ?_⟩
  · intro c r
    rcases createShare_shares_cases st now c r with h | ⟨sh, hid, h⟩
    · rw [h]; exact revokedPreservedL_self hnd
    · rw [h]; exact revokedPreservedL_cons hnd sh (hfresh sh hid)
  · intro c r
    rcases createShareIdem_shares_cases st now c r with h | ⟨sh, hid, h⟩
    · rw [h]; exact revokedPreservedL_self hnd
    · rw [h]; exact revokedPreservedL_cons hnd sh (hfresh sh hid)
  · intro rq sid
    rcases revokeShare_shares_cases st now rq sid with h | h
    · rw [h]; exact revokedPreservedL_self hnd
    · rw [h]
      refine revokedPreservedL_map hnd _ ?_ ?_
      · intro s; by_cases hc : (s.share_id == sid && s.from_user_id == rq) = true <;> simp [hc]
      · intro s hs; by_cases hc : (s.share_id == sid && s.from_user_id == rq) = true <;> simp [hc, hs]
  · intro rq sid e
    rcases setShareExpiry_shares_cases st now rq sid e with h | h
    · rw [h]; exact revokedPreservedL_self hnd
    · rw [h]
      refine revokedPreservedL_map hnd _ ?_ ?_
      · intro s; by_cases hc : (s.share_id == sid) = true <;> simp [hc]
      · intro s hs; by_cases hc : (s.share_id == sid) = true <;> simp [hc, hs]
  · intro rq sid
    rcases expireShareNow_shares_cases st now rq sid with h | h
    · rw [h]; exact revokedPreservedL_self hnd
    · rw [h]
      refine revokedPreservedL_map hnd _ ?_ ?_
      · intro s; by_cases hc : (s.share_id == sid) = true <;> simp [hc]
      · intro s hs; by_cases hc : (s.share_id == sid) = true <;> simp [hc, hs]
  · intro rq sid
    rcases deleteShare_shares_cases st rq sid with h | h
    · rw [h]; exact revokedPreservedL_self hnd
    · rw [h]; exact revokedPreservedL_filter hnd _
  · intro sid em r ttl
    rw [otpSend_shares_eq]
    exact revokedPreservedL_self hnd
  · intro sid em code
    rw [otpVerify_shares_eq]
    exact revokedPreservedL_self hnd
  · intro tok sh htok hfind hrev au em did
    exact resolveAccess_revoked_denies st now au tok em did sh htok hfind hrev
  · intro sid stok sh did wd uem hlook hrev v
    exact canAccess_revoked_denies st now did sid stok wd uem sh hlook hrev v

/-- Witness for C2 at a concrete store holding a revoked share: revoking
again preserves the flag, and both resolvers deny through the revoked
share's token. -/
theorem c2_witness :
    SharesWF fixStRev ∧
    revokedPreservedL fixStRev.shares (revokeShare fixStRev 5 1 300).2.shares ∧
    resolveAccess fixStRev 5 (some 2) "tokrev" "alice@x.com" 10 = .noAccess ∧
    canAccess fixStRev 5 10 (some 300) none true (some "alice@x.com") ≠ .ok (some 2) := by
  have hwf : SharesWF fixStRev := by
    constructor
    · decide
    · decide
  have h := c2_revocation_monotone_and_final fixStRev 5 hwf
  refine ⟨hwf, h.2.2.1 1 300, ?_, ?_⟩
  · exact h.2.2.2.2.2.2.2.2.1 "tokrev" fixRev (by decide) (by decide) (by decide)
      (some 2) "alice@x.com" 10
  · exact h.2.2.2.2.2.2.2.2.2 (some 300) none fixRev 10 true (some "alice@x.com")
      (by decide) (by decide) (some 2)


/-- C8: a supplied (non-null) expiry that is not strictly in the future is
rejected with the invalid-expiry error and nothing is written, on share
creation (both variants, after the document-ownership check that precedes
the validation) and on the expiry-update route (where the validation comes
first); a null expiry on the update route succeeds and clears the share's
expiry, and a strictly-future one is accepted and stored. -/
theorem c8_expiry_validation (st : Store) (now creator requester : Nat) :
    (∀ r did t, r.document_id = some did →
      st.documents.any (fun d => d.document_id == did && d.owner_user_id == creator) = true →
      r.expiry_time = some t → t ≤ now →
      createShare st now creator r = (.errInvalidExpiry, st)) ∧
    (∀ r did t, r.document_id = some did →
      st.documents.any (fun d => d.document_id == did && d.owner_user_id == creator) = true →
      r.expiry_time = some t → t ≤ now →
      createShareIdem st now creator r = (.errInvalidExpiry, st)) ∧
    (∀ sid t, t ≤ now →
      setShareExpiry st now requester sid (some t) = (.errInvalidExpiry, st)) ∧
    (∀ sid sel,
      st.shares.find? (fun s => s.share_id == sid && s.from_user_id == requester) = some sel →
      (setShareExpiry st now requester sid none).1 = .ok sid none ∧
      ∀ sh' ∈ (setShareExpiry st now requester sid none).2.shares,
        sh'.share_id = sid → sh'.expiry_time = none) ∧
    (∀ sid sel t,
      st.shares.find? (fun s => s.share_id == sid && s.from_user_id == requester) = some sel →
      now < t →
      (setShareExpiry st now requester sid (some t)).1 = .ok sid (some t) ∧
      ∀ sh' ∈ (setShareExpiry st now requester sid (some t)).2.shares,
        sh'.share_id = sid → sh'.expiry_time = some t) := by
  refine ⟨?_, ?_, ?_, ?_, ?_⟩
  · intro r did t hdid howns ht hle
    unfold createShare
    rw [hdid]
    simp [howns, ht, expiryNotFuture, hle]
  · intro r did t hdid howns ht hle
    unfold createShareIdem
    rw [hdid]
    simp [howns, ht, expiryNotFuture, hle]
  · intro sid t hle
    unfold setShareExpiry
    simp [expiryNotFuture, hle]
  · intro sid sel hfind
    unfold setShareExpiry
    rw [hfind]
    simp only [expiryNotFuture, if_neg]
    refine ⟨rfl, ?_⟩
    intro sh' hmem hid
    rcases List.mem_map.mp hmem with ⟨a, ha, rfl⟩
    by_cases hc : (a.share_id == sid) = true
    · simp [hc]
    · simp only [hc, if_neg, ite_false] at hid ⊢
      exact absurd (beq_iff_eq.mpr hid) (by simpa using hc)
  · intro sid sel t hfind hlt
    unfold setShareExpiry
    have hnf : expiryNotFuture (some t) now = false := by
      unfold expiryNotFuture
      simp
      omega
    rw [hnf]
    simp only [Bool.false_eq_true, if_false]
    rw [hfind]
    refine ⟨rfl, ?_⟩
    intro sh' hmem hid
    rcases List.mem_map.mp hmem with ⟨a, ha, rfl⟩
    by_cases hc : (a.share_id == sid) = true
    · simp [hc]
    · simp only [hc, if_neg, ite_false] at hid ⊢
      exact absurd (beq_iff_eq.mpr hid) (by simpa using hc)

/-- Witness for C8 at concrete inputs: a past expiry on create and on the
expiry route is rejected with the store unchanged; a null expiry update on
the private share succeeds and clears it; a future one is stored. -/
theorem c8_witness :
    createShare fixStPriv 5 1
      { document_id := some 10, to_email := "", expiry_time := some 5, access := none } =
      (.errInvalidExpiry, fixStPriv) ∧
    setShareExpiry fixStPriv 5 1 200 (some 3) = (.errInvalidExpiry, fixStPriv) ∧
    (setShareExpiry fixStPriv 5 1 200 none).1 = .ok 200 none ∧
    (setShareExpiry fixStPriv 5 1 200 (some 9)).1 = .ok 200 (some 9) := by
  have h := c8_expiry_validation fixStPriv 5 1 1
  refine ⟨?_, ?_, ?_, ?_⟩
  · exact h.1 { document_id := some 10, to_email := "", expiry_time := some 5, access := none }
      10 5 rfl (by decide) rfl (by decide)
  · exact h.2.2.1 200 3 (by decide)
  · exact (h.2.2.2.1 200 fixPriv (by decide)).1
  · exact (h.2.2.2.2 200 fixPriv 9 (by decide) (by decide)).1


/-- C6 counterexample: creating a share with requested access `public` and
the registered recipient email `alice@x.com` stores a share whose access
is `public` but which still carries the recipient binding
`to_user_id = 2`, in both create variants — refuting the claim that a
public share carries no recipient binding even when the request supplied a
recipient email. -/
theorem c6_counterexample :
    (createShare fixStPriv 5 1 fixReqPubReg).1 = .created fixC6PubBound ∧
    (createShareIdem fixStPriv 5 1 fixReqPubReg).1 = .created fixC6PubBound ∧
    fixC6PubBound.access = "public" ∧ fixC6PubBound.to_user_id = some 2 := by
  refine ⟨by decide, by decide, rfl, rfl⟩

set_option maxHeartbeats 1000000 in
/-- C6 (amended): every stored `private` share has a registered recipient
bound (`to_user_id` set, no pending email), every stored share is
`private` or `public`, and a creation request with no recipient email
yields a share with no recipient binding; but a `public` share may carry a
recipient binding (`to_user_id` when the supplied email resolved to a
registered user — see the counterexample — and, in the plain variant, the
pending `to_user_email` when it did not; the idempotent variant nulls only
the email for public shares). -/
theorem c6_access_mode_recipient_binding (st : Store) (now creator : Nat) :
    (∀ r sh, (createShare st now creator r).1 = .created sh →
      (sh.access = "private" → sh.to_user_id.isSome = true ∧ sh.to_user_email = none) ∧
      (sh.access = "private" ∨ sh.access = "public") ∧
      (jsTrim r.to_email = "" → sh.to_user_id = none ∧ sh.to_user_email = none)) ∧
    (∀ r sh, (createShareIdem st now creator r).1 = .created sh →
      (sh.access = "private" → sh.to_user_id.isSome = true ∧ sh.to_user_email = none) ∧
      (sh.access = "public" → sh.to_user_email = none) ∧
      (jsTrim r.to_email = "" → sh.to_user_id = none ∧ sh.to_user_email = none)) := by
  constructor
  · intro r sh h
    unfold createShare at h
    dsimp only at h
    repeat' split at h
    all_goals dsimp only at h
    all_goals cases h
    all_goals
      refine ⟨?_, ?_, ?_⟩ <;> (try intro hX) <;> (try split_ifs at *) <;>
        simp_all [show ("public" : String) ≠ "private" from by decide,
                  show ("private" : String) ≠ "public" from by decide]
  · intro r sh h
    unfold createShareIdem at h
    dsimp only at h
    repeat' split at h
    all_goals dsimp only at h
    all_goals cases h
    all_goals
      refine ⟨?_, ?_, ?_⟩ <;> (try intro hX) <;> (try split_ifs at *) <;>
        simp_all [show ("public" : String) ≠ "private" from by decide,
                  show ("private" : String) ≠ "public" from by decide]

/-- Witness for C6 (amended) at a concrete creation: the default-access
create with a registered recipient yields a private share with the
recipient bound and no pending email. -/
theorem c6_witness :
    (fixC6Created.access = "private" →
      fixC6Created.to_user_id.isSome = true ∧ fixC6Created.to_user_email = none) ∧
    (fixC6Created.access = "private" ∨ fixC6Created.access = "public") ∧
    (jsTrim fixReqDefault.to_email = "" →
      fixC6Created.to_user_id = none ∧ fixC6Created.to_user_email = none) :=
  (c6_access_mode_recipient_binding fixStPriv 5 1).1 fixReqDefault fixC6Created (by decide)


/-- C9 counterexample: user 1 owns document 10 and authenticates as its
owner, yet a download request that carries the token of the active public
share of that same document is refused with the public-view-only error —
the token path of resolveAccess preempts the owner check and the route's
owner fallback only fires when no mode was resolved.  This refutes the
claim that the owner is allowed unconditionally with no share-state
condition able to block them. -/
theorem c9_counterexample :
    downloadDocument fixStPub 5 (some 1) "tokpub" "" 10 =
      .denied "Public shares are view-only" ∧
    fixStPub.documents.find? (fun x => x.document_id == 10) = some ⟨10, 1⟩ := by
  refine ⟨by decide, by decide⟩

/-- C9 (amended): the document owner is allowed both view and download
whenever the request carries no share token, or carries one that resolves
to no access mode (regardless of any revoked or expired shares in the
store); but when the supplied token resolves to an active public share,
the download is denied public-view-only even for the owner. -/
theorem c9_owner_access (st : Store) (now uid did : Nat) (d : Document) (em : String)
    (hdoc : st.documents.find? (fun x => x.document_id == did) = some d)
    (hown : d.owner_user_id = uid) :
    viewDocument st now (some uid) "" em did = .allowed (.owner uid) ∧
    downloadDocument st now (some uid) "" em did = .allowed (.owner uid) ∧
    (∀ tok, resolveAccess st now (some uid) tok em did = .noAccess →
      viewDocument st now (some uid) tok em did = .allowed (.owner uid) ∧
      downloadDocument st now (some uid) tok em did = .allowed (.owner uid)) ∧
    (∀ tok sh, resolveAccess st now (some uid) tok em did = .publicShare sh →
      downloadDocument st now (some uid) tok em did =
        .denied "Public shares are view-only") := by
  have hra : resolveAccess st now (some uid) "" em did = .owner uid := by
    unfold resolveAccess
    rw [if_neg (fun hc => hc rfl)]
    dsimp only
    rw [hdoc]
    simp [hown]
  refine ⟨?_, ?_, ?_, ?_⟩
  · unfold viewDocument
    rw [hdoc, hra]
    simp
  · unfold downloadDocument
    rw [hdoc, hra]
    simp
  · intro tok h
    constructor
    · unfold viewDocument
      rw [hdoc, h]
      simp [hown]
    · unfold downloadDocument
      rw [hdoc, h]
      simp [hown]
  · intro tok sh h
    unfold downloadDocument
    rw [hdoc, h]
    simp

/-- Witness for C9 (amended) at a concrete store: owner 1 of document 10
is allowed without a token and with a non-resolving token, and is denied
the download through the active public share token. -/
theorem c9_witness :
    viewDocument fixStPub 5 (some 1) "" "" 10 = .allowed (.owner 1) ∧
    downloadDocument fixStPub 5 (some 1) "" "" 10 = .allowed (.owner 1) ∧
    downloadDocument fixStPub 5 (some 1) "tokbad" "" 10 = .allowed (.owner 1) ∧
    downloadDocument fixStPub 5 (some 1) "tokpub" "" 10 =
      .denied "Public shares are view-only" := by
  have h := c9_owner_access fixStPub 5 1 10 ⟨10, 1⟩ "" (by decide) rfl
  exact ⟨h.1, h.2.1, (h.2.2.1 "tokbad" (by decide)).2, h.2.2.2 "tokpub" fixPub (by decide)⟩


/-- C10: OTP verification never consults the share's state.  With a
registered claimant and a matching unverified, unexpired code, Verify
succeeds even though the referenced share is revoked; the handler leaves
the `shares` table unchanged; its outcome and its effect on the OTP table
are identical for any contents of the `shares` table; and access
resolution through the revoked share keeps denying afterwards, at every
time and for every viewer. -/
theorem c10_verify_ignores_share_state
    (st : Store) (now sid : Nat) (emailRaw codeRaw tok : String)
    (sh : Share) (u : User) (row : OtpRow)
    (htok : tok ≠ "")
    (hfind : st.shares.find? (fun s => s.share_token == tok) = some sh)
    (hrev : sh.is_revoked = true)
    (hne : jsLower (jsTrim emailRaw) ≠ "")
    (hcne : jsTrim codeRaw ≠ "")
    (hfu : findUserByEmail st.users (jsLower (jsTrim emailRaw)) = some u)
    (hrow : st.otps.find? (fun o => o.share_id == sid && o.user_id == u.user_id &&
        !o.is_verified && now < o.expiry_time && o.otp_code == jsTrim codeRaw) = some row) :
    (otpVerify st now sid emailRaw codeRaw).1 = .ok ∧
    (otpVerify st now sid emailRaw codeRaw).2.shares = st.shares ∧
    (∀ shs',
      (otpVerify { st with shares := shs' } now sid emailRaw codeRaw).1 =
        (otpVerify st now sid emailRaw codeRaw).1 ∧
      (otpVerify { st with shares := shs' } now sid emailRaw codeRaw).2.otps =
        (otpVerify st now sid emailRaw codeRaw).2.otps) ∧
    (∀ t' au em' did,
      resolveAccess (otpVerify st now sid emailRaw codeRaw).2 t' au tok em' did =
        .noAccess) := by
  have hshares := otpVerify_shares_eq st now sid emailRaw codeRaw
  refine ⟨?_, hshares, ?_, ?_⟩
  · unfold otpVerify
    dsimp only
    rw [hfu]
    simp only [hne, hcne, hrow]
    simp
  · intro shs'
    constructor
    · unfold otpVerify
      dsimp only
      rw [hfu]
      simp only [hne, hcne, hrow]
      simp
    · unfold otpVerify
      dsimp only
      rw [hfu]
      simp only [hne, hcne, hrow]
      simp
  · intro t' au em' did
    refine resolveAccess_revoked_denies _ t' au tok em' did sh htok ?_ hrev
    rw [hshares]
    exact hfind

/-- Witness for C10: on the store with a revoked private share and an
active code for it, Verify succeeds, the share row is untouched and the
revoked share keeps being denied. -/
theorem c10_witness :
    (otpVerify fixStC10 5 400 "alice@x.com" "222222").1 = .ok ∧
    (otpVerify fixStC10 5 400 "alice@x.com" "222222").2.shares = fixStC10.shares ∧
    ((otpVerify { fixStC10 with shares := [] } 5 400 "alice@x.com" "222222").1 =
      (otpVerify fixStC10 5 400 "alice@x.com" "222222").1 ∧
     (otpVerify { fixStC10 with shares := [] } 5 400 "alice@x.com" "222222").2.otps =
      (otpVerify fixStC10 5 400 "alice@x.com" "222222").2.otps) ∧
    resolveAccess (otpVerify fixStC10 5 400 "alice@x.com" "222222").2 9 (some 2)
      "tokrevpriv" "alice@x.com" 10 = .noAccess := by
  have h := c10_verify_ignores_share_state fixStC10 5 400 "alice@x.com" "222222"
    "tokrevpriv" fixRevPriv ⟨2, "alice@x.com"⟩ fixOtpActiveRev
    (by decide) (by decide) (by decide) (by decide) (by decide) (by decide) (by decide)
  exact ⟨h.1, h.2.1, h.2.2.1 [], h.2.2.2 9 (some 2) "alice@x.com" 10⟩


/-- C7: recipient binding is enforced on every private-share operation.
For a private, active share resolved by id (OTP send) or token (access
resolution) and a registered claimant: a claimant whose user id differs
from a bound `to_user_id` is refused as wrong recipient by both OTP send
and access resolution; with no bound user id, a claimant whose email
differs case-insensitively from a bound `to_user_email` is refused the
same way; and even the correctly bound claimant is denied access when all
their verified OTP challenges belong to other shares — a verified OTP is
scoped to its own share. -/
theorem c7_recipient_binding_enforced
    (st : Store) (now sid : Nat) (sh : Share) (u : User)
    (emailRaw tok : String) (rand ttl : Nat) (au : Option Nat)
    (hshare : st.shares.find? (fun s => s.share_id == sid) = some sh)
    (htok : tok ≠ "")
    (htokfind : st.shares.find? (fun s => s.share_token == tok) = some sh)
    (hpriv : sh.access = "private")
    (hrev : sh.is_revoked = false)
    (hexp : ∀ t, sh.expiry_time = some t → now < t)
    (hne : jsLower (jsTrim emailRaw) ≠ "")
    (hfu : findUserByEmail st.users (jsLower (jsTrim emailRaw)) = some u) :
    (∀ tid, sh.to_user_id = some tid → tid ≠ u.user_id →
      otpSend st now sid emailRaw rand ttl = (.errWrongRecipient, st) ∧
      resolveAccess st now au tok emailRaw sh.document_id = .noAccess) ∧
    (sh.to_user_id = none → ∀ e, sh.to_user_email = some e →
      jsLower e ≠ jsLower u.email →
      otpSend st now sid emailRaw rand ttl = (.errWrongRecipient, st) ∧
      resolveAccess st now au tok emailRaw sh.document_id = .noAccess) ∧
    (sh.to_user_id = some u.user_id →
      (∀ o ∈ st.otps, o.user_id = u.user_id → o.is_verified = true →
        o.share_id ≠ sh.share_id) →
      resolveAccess st now au tok emailRaw sh.document_id = .noAccess) := by
  have hle := shareExpiredLe_eq_false sh now hexp
  have hpub : (sh.access == "public") = false := by
    rw [hpriv]; decide
  have hprivne : (sh.access != "private") = false := by
    rw [hpriv]; decide
  refine ⟨?_, ?_, ?_⟩
  · intro tid hbind hne2
    constructor
    · unfold otpSend
      dsimp only
      simp only [hne, if_neg, ite_false, if_false]
      rw [hshare]
      simp only [hrev, hprivne, hle, Bool.false_eq_true, if_false]
      rw [hfu]
      simp [hbind, hne2]
    · unfold resolveAccess
      rw [if_pos htok, htokfind]
      simp only [bne_self_eq_false, Bool.false_eq_true, if_false, hrev, hle, hpub]
      have hcne : (jsLower (jsTrim emailRaw) == "") = false := by
        simpa using hne
      simp only [hcne, Bool.false_eq_true, if_false]
      rw [hfu]
      have hmm : recipientMismatch sh u = true := by
        unfold recipientMismatch
        rw [hbind]
        simpa using hne2
      simp [hmm]
  · intro hnone e hemail hne2
    constructor
    · unfold otpSend
      dsimp only
      simp only [hne, if_neg, ite_false, if_false]
      rw [hshare]
      simp only [hrev, hprivne, hle, Bool.false_eq_true, if_false]
      rw [hfu]
      simp [hnone, hemail, hne2]
    · unfold resolveAccess
      rw [if_pos htok, htokfind]
      simp only [bne_self_eq_false, Bool.false_eq_true, if_false, hrev, hle, hpub]
      have hcne : (jsLower (jsTrim emailRaw) == "") = false := by
        simpa using hne
      simp only [hcne, Bool.false_eq_true, if_false]
      rw [hfu]
      have hmm : recipientMismatch sh u = true := by
        unfold recipientMismatch
        rw [hnone, hemail]
        simpa using hne2
      simp [hmm]
  · intro hbind hscope
    unfold resolveAccess
    rw [if_pos htok, htokfind]
    simp only [bne_self_eq_false, Bool.false_eq_true, if_false, hrev, hle, hpub]
    have hcne : (jsLower (jsTrim emailRaw) == "") = false := by
      simpa using hne
    simp only [hcne, Bool.false_eq_true, if_false]
    rw [hfu]
    have hmm : recipientMismatch sh u = false := by
      unfold recipientMismatch
      rw [hbind]
      simp
    have hno : hasVerifiedOtp st.otps sh.share_id u.user_id now = false := by
      unfold hasVerifiedOtp
      rw [List.any_eq_false]
      intro o ho
      intro hcontra
      simp only [Bool.and_eq_true, beq_iff_eq] at hcontra
      exact hscope o ho hcontra.1.1.2 hcontra.1.2 hcontra.1.1.1
    simp [hmm, hno]

/-- Witness for C7: Carol is refused OTP send and access on the share
bound to Alice's user id, Carol is refused on the share bound to Bob's
email, and Alice herself is denied on share 200 while her only verified
OTP belongs to share 210. -/
theorem c7_witness :
    otpSend fixStC7 5 200 "carol@x.com" 7 10 = (.errWrongRecipient, fixStC7) ∧
    resolveAccess fixStC7 5 none "tokpriv" "carol@x.com" 10 = .noAccess ∧
    otpSend fixStC7 5 220 "carol@x.com" 7 10 = (.errWrongRecipient, fixStC7) ∧
    resolveAccess fixStC7 5 none "tokpe" "carol@x.com" 10 = .noAccess ∧
    resolveAccess fixStC7 5 none "tokpriv" "alice@x.com" 10 = .noAccess := by
  have hc := c7_recipient_binding_enforced fixStC7 5 200 fixPriv ⟨3, "carol@x.com"⟩
    "carol@x.com" "tokpriv" 7 10 none (by decide) (by decide) (by decide) rfl rfl
    (by intro t ht; cases ht) (by decide) (by decide)
  have hpe := c7_recipient_binding_enforced fixStC7 5 220 fixPrivEmail ⟨3, "carol@x.com"⟩
    "carol@x.com" "tokpe" 7 10 none (by decide) (by decide) (by decide) rfl rfl
    (by intro t ht; cases ht) (by decide) (by decide)
  have ha := c7_recipient_binding_enforced fixStC7 5 200 fixPriv ⟨2, "alice@x.com"⟩
    "alice@x.com" "tokpriv" 7 10 none (by decide) (by decide) (by decide) rfl rfl
    (by intro t ht; cases ht) (by decide) (by decide)
  exact ⟨(hc.1 2 rfl (by decide)).1, (hc.1 2 rfl (by decide)).2,
    (hpe.2.1 rfl "bob@x.com" rfl (by decide)).1,
    (hpe.2.1 rfl "bob@x.com" rfl (by decide)).2,
    ha.2.2 rfl (by decide)⟩


/-- OTP send either leaves the OTP table alone (any failure) or prepends
one fresh challenge for a resolved user that had no active challenge. -/
theorem otpSend_otps_cases (st : Store) (now sid : Nat) (em : String) (r ttl : Nat) :
    (otpSend st now sid em r ttl).2.otps = st.otps ∨
    ∃ u : User, findUserByEmail st.users (jsLower (jsTrim em)) = some u ∧
      hasActiveOtp st.otps u.user_id sid now = false ∧
      (otpSend st now sid em r ttl).2.otps =
        { otp_id := st.nextOtpId, user_id := u.user_id, share_id := sid,
          otp_code := toString (100000 + r % 900000), expiry_time := now + ttl * 60,
          is_verified := false, created_at := now } :: st.otps := by
  unfold otpSend
  dsimp only
  repeat' split
  all_goals try (left; rfl)
  right
  exact ⟨_, by assumption, by simp_all, rfl⟩

/-- OTP verify either leaves the OTP table alone (any failure) or marks
the matched challenge verified in place. -/
theorem otpVerify_otps_cases (st : Store) (now sid : Nat) (em code : String) :
    (otpVerify st now sid em code).2.otps = st.otps ∨
    ∃ rid : Nat, (otpVerify st now sid em code).2.otps =
      st.otps.map (fun o => if o.otp_id == rid then { o with is_verified := true } else o) := by
  unfold otpVerify
  dsimp only
  repeat' split
  all_goals try (left; rfl)
  all_goals (right; exact ⟨_, rfl⟩)

/-- Marking a challenge verified preserves its identifying pair and only
shrinks the set of active challenges. -/
theorem activeOtp_markVerified (rid : Nat) (t : Nat) (x : OtpRow) :
    ((if x.otp_id == rid then { x with is_verified := true } else x).user_id = x.user_id ∧
     (if x.otp_id == rid then { x with is_verified := true } else x).share_id = x.share_id) ∧
    (activeOtp (if x.otp_id == rid then { x with is_verified := true } else x) t = true →
      activeOtp x t = true) := by
  by_cases hc : (x.otp_id == rid) = true
  · simp [hc, activeOtp]
  · simp only [Bool.not_eq_true] at hc
    simp [hc]


/-- C4 counterexample: with an unverified, unexpired challenge already
stored for (user 2, share 200), a fresh OTP send for the same pair by the
bound recipient does not succeed and invalidate the prior challenge — it
is rejected with the duplicate-active error, the store is unchanged and
the prior challenge is still active and unverified.  This refutes the
claim that issuing a new challenge invalidates the prior active one
before persisting the new code. -/
theorem c4_counterexample :
    otpSend fixStC4 5 200 "alice@x.com" 7 10 = (.errDuplicateActive, fixStC4) ∧
    fixStC4.otps = [fixOtpActive] ∧
    activeOtp fixOtpActive 5 = true ∧ fixOtpActive.is_verified = false := by
  refine ⟨by decide, rfl, by decide, rfl⟩

/-- C4 (amended): at most one active OTP challenge exists per (user,
share) pair — the invariant is preserved at the current instant by OTP
send (which inserts only when the pair has no active challenge, the
behaviour of the `prevent_duplicate_active_otp` trigger its callers rely
on), by OTP verify (which only marks challenges verified) and by share
deletion (which only removes challenges); and an OTP send for a pair that
still has an active challenge is rejected with the duplicate-active error
instead of invalidating it, leaving the store unchanged. -/
theorem c4_single_active_otp (st : Store) (now : Nat)
    (hinv : otpsAtMostOneActive st.otps now) :
    (∀ sid em r ttl, otpsAtMostOneActive (otpSend st now sid em r ttl).2.otps now) ∧
    (∀ sid em code, otpsAtMostOneActive (otpVerify st now sid em code).2.otps now) ∧
    (∀ rq sid, otpsAtMostOneActive (deleteShare st rq sid).2.otps now) ∧
    (∀ sid em r ttl u sh,
      st.shares.find? (fun s => s.share_id == sid) = some sh →
      sh.is_revoked = false → sh.access = "private" →
      (∀ t, sh.expiry_time = some t → now < t) →
      jsLower (jsTrim em) ≠ "" →
      findUserByEmail st.users (jsLower (jsTrim em)) = some u →
      sh.to_user_id = some u.user_id →
      hasActiveOtp st.otps u.user_id sid now = true →
      otpSend st now sid em r ttl = (.errDuplicateActive, st)) := by
  refine ⟨?_, ?_, ?_, ?_⟩
  · intro sid em r ttl
    rcases otpSend_otps_cases st now sid em r ttl with h | ⟨u, hfu, hnoact, h⟩
    · rw [h]; exact hinv
    · rw [h]
      refine List.pairwise_cons.mpr ⟨?_, hinv⟩
      intro b hb hcontra
      obtain ⟨-, hactb, huid, hsid⟩ := hcontra
      unfold hasActiveOtp at hnoact
      rw [List.any_eq_false] at hnoact
      apply hnoact b hb
      simp only [activeOtp, Bool.and_eq_true] at hactb
      simp [← huid, ← hsid, hactb.1, hactb.2]
  · intro sid em code
    rcases otpVerify_otps_cases st now sid em code with h | ⟨rid, h⟩
    · rw [h]; exact hinv
    · rw [h]
      refine List.Pairwise.map _ ?_ hinv
      intro a b hR hcontra
      obtain ⟨ha, hb, hu, hs⟩ := hcontra
      obtain ⟨⟨hu1, hs1⟩, hact1⟩ := activeOtp_markVerified rid now a
      obtain ⟨⟨hu2, hs2⟩, hact2⟩ := activeOtp_markVerified rid now b
      exact hR ⟨hact1 ha, hact2 hb, by rw [← hu1, ← hu2]; exact hu,
        by rw [← hs1, ← hs2]; exact hs⟩
  · intro rq sid
    unfold deleteShare
    split
    · exact hinv
    · exact hinv.sublist (List.filter_sublist st.otps)
  · intro sid em r ttl u sh hshare hrev hpriv hexp hne hfu hbind hdup
    have hle := shareExpiredLe_eq_false sh now hexp
    have hprivne : (sh.access != "private") = false := by
      rw [hpriv]; decide
    unfold otpSend
    dsimp only
    simp only [hne, if_neg, ite_false, if_false]
    rw [hshare]
    simp only [hrev, hprivne, hle, Bool.false_eq_true, if_false]
    rw [hfu]
    simp [hbind, hdup]

/-- Witness for C4 (amended) on the store already holding an active
challenge for (user 2, share 200): the invariant is preserved by the three
OTP-table mutators, and the conflicting send is rejected. -/
theorem c4_witness :
    otpsAtMostOneActive (otpSend fixStC4 5 200 "alice@x.com" 7 10).2.otps 5 ∧
    otpsAtMostOneActive (otpVerify fixStC4 5 200 "alice@x.com" "111111").2.otps 5 ∧
    otpsAtMostOneActive (deleteShare fixStC4 1 200).2.otps 5 ∧
    otpSend fixStC4 5 200 "alice@x.com" 7 10 = (.errDuplicateActive, fixStC4) := by
  have h := c4_single_active_otp fixStC4 5
    (by simp [fixStC4, otpsAtMostOneActive])
  exact ⟨h.1 200 "alice@x.com" 7 10, h.2.1 200 "alice@x.com" "111111", h.2.2.1 1 200,
    h.2.2.2 200 "alice@x.com" 7 10 ⟨2, "alice@x.com"⟩ fixPriv (by decide) rfl rfl
      (by intro t ht; cases ht) (by decide) (by decide) rfl (by decide)⟩


set_option maxHeartbeats 4000000 in
/-- C3: share creation (idempotent variant, src/unnamed/part_014) is
idempotent against the (document, creator, resolved recipient identity,
resolved access) tuple: if a first Create succeeded and produced share
`sh`, then a second Create with the identical request, issued at any time
at which `sh` is still active (not past its expiry; it was created
unrevoked), returns exactly that share tagged as reused and leaves the
store unchanged — no second row is inserted. -/
theorem c3_create_idempotent
    (st st1 : Store) (t0 t1 : Nat) (creator : Nat) (req : CreateReq) (sh : Share)
    (h1 : createShareIdem st t0 creator req = (.created sh, st1))
    (hact : ∀ t, sh.expiry_time = some t → t1 < t) :
    createShareIdem st1 t1 creator req = (.reused sh, st1) := by
  unfold createShareIdem at h1
  dsimp only at h1
  repeat' split at h1
  all_goals simp only [Prod.mk.injEq] at h1
  all_goals obtain ⟨hsh, hst⟩ := h1
  all_goals cases hsh
  all_goals subst hst
  all_goals dsimp only at hact
  all_goals (
    rcases hre : req.expiry_time with _ | texp <;>
    rcases hfu : findUserByEmail st.users (jsTrim req.to_email) with _ | u <;>
    (try have hlt := hact texp hre) <;>
    by_cases hmt : jsTrim req.to_email = "" <;>
    (unfold createShareIdem; dsimp only) <;>
    simp_all <;>
    (try (split_ifs <;> simp_all [expiryNotFuture])) <;>
    (try tauto) <;>
    (try omega))

/-- Witness for C3: after creating the default-access share for the
registered recipient at time 5 (expiry 50), repeating the identical
request at time 9 returns the same share as reused with the store
unchanged. -/
theorem c3_witness :
    createShareIdem
      { fixStPub with shares := fixC6Created :: fixStPub.shares, nextShareId := 501 }
      9 1 fixReqDefault =
    (.reused fixC6Created,
     { fixStPub with shares := fixC6Created :: fixStPub.shares, nextShareId := 501 }) := by
  exact c3_create_idempotent fixStPub
    { fixStPub with shares := fixC6Created :: fixStPub.shares, nextShareId := 501 }
    5 9 1 fixReqDefault fixC6Created (by decide)
    (by intro t ht; cases ht; decide)

set_option maxHeartbeats 2000000 in
/-- C5: OTP round trip on an active private share bound to registered
recipient `u`.  With no prior active challenge, Send at `t0` issues a
challenge expiring at `t0 + ttl*60`; Verify with the exact issued code at
`t1` inside the window succeeds; afterwards access resolution at any `t2`
inside the challenge window (share still active) resolves to private
access for that recipient, and both the view and the download routes
allow it; the verified row is kept (not consumed) and the `shares` table
is untouched; and Verify with the same code at any `t3` at or past the
challenge expiry fails with the invalid-or-expired error. -/
theorem c5_otp_round_trip
    (st : Store) (t0 t1 t2 t3 sid : Nat) (sh : Share) (u : User) (d : Document)
    (emailRaw : String) (rand ttl : Nat) (au : Option Nat)
    (hshare : st.shares.find? (fun s => s.share_id == sid) = some sh)
    (htokne : sh.share_token ≠ "")
    (htokfind : st.shares.find? (fun s => s.share_token == sh.share_token) = some sh)
    (hdoc : st.documents.find? (fun x => x.document_id == sh.document_id) = some d)
    (hpriv : sh.access = "private")
    (hrev : sh.is_revoked = false)
    (hexp0 : ∀ t, sh.expiry_time = some t → t0 < t)
    (hexp2 : ∀ t, sh.expiry_time = some t → t2 < t)
    (hne : jsLower (jsTrim emailRaw) ≠ "")
    (hfu : findUserByEmail st.users (jsLower (jsTrim emailRaw)) = some u)
    (hbind : sh.to_user_id = some u.user_id)
    (hnoact : hasActiveOtp st.otps u.user_id sid t0 = false)
    (ht1 : t1 < t0 + ttl * 60)
    (ht2 : t2 < t0 + ttl * 60)
    (ht3 : t0 + ttl * 60 ≤ t3)
    (hcodetrim : jsTrim (toString (100000 + rand % 900000)) = toString (100000 + rand % 900000))
    (hcodene : toString (100000 + rand % 900000) ≠ "") :
    (otpSend st t0 sid emailRaw rand ttl).1 = .sent st.nextOtpId (t0 + ttl * 60) ∧
    (otpVerify (otpSend st t0 sid emailRaw rand ttl).2 t1 sid emailRaw
        (toString (100000 + rand % 900000))).1 = .ok ∧
    (otpVerify (otpSend st t0 sid emailRaw rand ttl).2 t1 sid emailRaw
        (toString (100000 + rand % 900000))).2.shares = st.shares ∧
    resolveAccess
      (otpVerify (otpSend st t0 sid emailRaw rand ttl).2 t1 sid emailRaw
        (toString (100000 + rand % 900000))).2
      t2 au sh.share_token emailRaw sh.document_id = .privateShare u.user_id sh ∧
    viewDocument
      (otpVerify (otpSend st t0 sid emailRaw rand ttl).2 t1 sid emailRaw
        (toString (100000 + rand % 900000))).2
      t2 au sh.share_token emailRaw sh.document_id = .allowed (.privateShare u.user_id sh) ∧
    downloadDocument
      (otpVerify (otpSend st t0 sid emailRaw rand ttl).2 t1 sid emailRaw
        (toString (100000 + rand % 900000))).2
      t2 au sh.share_token emailRaw sh.document_id = .allowed (.privateShare u.user_id sh) ∧
    (∃ o ∈ (otpVerify (otpSend st t0 sid emailRaw rand ttl).2 t1 sid emailRaw
        (toString (100000 + rand % 900000))).2.otps,
      o.otp_id = st.nextOtpId ∧ o.is_verified = true ∧
      o.otp_code = toString (100000 + rand % 900000) ∧
      o.expiry_time = t0 + ttl * 60) ∧
    (otpVerify
      (otpVerify (otpSend st t0 sid emailRaw rand ttl).2 t1 sid emailRaw
        (toString (100000 + rand % 900000))).2
      t3 sid emailRaw (toString (100000 + rand % 900000))).1 = .errInvalidOrExpired := by
  have hsid : sh.share_id = sid := by
    have hp := List.find?_some hshare
    simpa using hp
  have hle0 := shareExpiredLe_eq_false sh t0 hexp0
  have hle2 := shareExpiredLe_eq_false sh t2 hexp2
  have hprivne : (sh.access != "private") = false := by
    rw [hpriv]; decide
  have hpub : (sh.access == "public") = false := by
    rw [hpriv]; decide
  have hsend : otpSend st t0 sid emailRaw rand ttl =
      (.sent st.nextOtpId (t0 + ttl * 60),
       { st with
         otps := { otp_id := st.nextOtpId, user_id := u.user_id, share_id := sid,
                   otp_code := toString (100000 + rand % 900000),
                   expiry_time := t0 + ttl * 60, is_verified := false,
                   created_at := t0 } :: st.otps,
         nextOtpId := st.nextOtpId + 1,
         logs := { share_id := some sid, document_id := sh.document_id,
                   viewer_user_id := some u.user_id,
                   action := "otp_request" } :: st.logs }) := by
    unfold otpSend
    dsimp only
    simp only [hne, if_neg, ite_false, if_false]
    rw [hshare]
    simp only [hrev, hprivne, hle0, Bool.false_eq_true, if_false]
    rw [hfu]
    simp [hbind, hnoact]
  -- the freshly inserted challenge row
  have hver : otpVerify (otpSend st t0 sid emailRaw rand ttl).2 t1 sid emailRaw
      (toString (100000 + rand % 900000)) =
      (.ok,
       { st with
         otps := List.map
           (fun o => if o.otp_id == st.nextOtpId then { o with is_verified := true } else o)
           ({ otp_id := st.nextOtpId, user_id := u.user_id, share_id := sid,
              otp_code := toString (100000 + rand % 900000),
              expiry_time := t0 + ttl * 60, is_verified := false,
              created_at := t0 } :: st.otps),
         nextOtpId := st.nextOtpId + 1,
         logs := { share_id := some sid, document_id := sh.document_id,
                   viewer_user_id := some u.user_id, action := "otp_verify" } ::
                 { share_id := some sid, document_id := sh.document_id,
                   viewer_user_id := some u.user_id,
                   action := "otp_request" } :: st.logs }) := by
    rw [hsend]
    unfold otpVerify
    dsimp only
    rw [hcodetrim]
    rw [if_neg (by simp [hne, hcodene])]
    rw [hfu]
    dsimp only
    rw [List.find?_cons_of_pos _ (by simp [ht1])]
    dsimp only
    rw [hshare]
  have hdocs2 : (otpVerify (otpSend st t0 sid emailRaw rand ttl).2 t1 sid emailRaw
      (toString (100000 + rand % 900000))).2.documents = st.documents := by
    rw [hver]
  have hcne : (jsLower (jsTrim emailRaw) == "") = false := by
    simpa using hne
  have hmm : recipientMismatch sh u = false := by
    unfold recipientMismatch
    rw [hbind]
    simp
  have hra : resolveAccess
      (otpVerify (otpSend st t0 sid emailRaw rand ttl).2 t1 sid emailRaw
        (toString (100000 + rand % 900000))).2
      t2 au sh.share_token emailRaw sh.document_id = .privateShare u.user_id sh := by
    rw [hver]
    unfold resolveAccess
    rw [if_pos htokne]
    dsimp only
    rw [htokfind]
    dsimp only
    simp only [bne_self_eq_false, Bool.false_eq_true, if_false, hrev, hle2, hpub]
    simp only [hcne, Bool.false_eq_true, if_false]
    rw [hfu]
    dsimp only
    have hvo : hasVerifiedOtp
        (List.map (fun o => if o.otp_id == st.nextOtpId then { o with is_verified := true } else o)
          ({ otp_id := st.nextOtpId, user_id := u.user_id, share_id := sid,
             otp_code := toString (100000 + rand % 900000),
             expiry_time := t0 + ttl * 60, is_verified := false,
             created_at := t0 } :: st.otps))
        sh.share_id u.user_id t2 = true := by
      unfold hasVerifiedOtp
      rw [List.map_cons, List.any_cons]
      simp [hsid, ht2]
    rw [hmm]
    rw [if_neg (by simp)]
    rw [hvo]
    rw [if_pos rfl]
  refine ⟨by rw [hsend], by rw [hver], by rw [hver], hra, ?_, ?_, ?_, ?_⟩
  · unfold viewDocument
    rw [hdocs2, hdoc, hra]
    simp
  · unfold downloadDocument
    rw [hdocs2, hdoc, hra]
    simp
  · rw [hver]
    dsimp only
    rw [List.map_cons]
    refine ⟨_, List.mem_cons_self _ _, ?_, ?_, ?_, ?_⟩ <;> simp
  · rw [hver]
    unfold otpVerify
    dsimp only
    rw [hcodetrim]
    rw [if_neg (by simp [hne, hcodene])]
    rw [hfu]
    dsimp only
    have hnone : List.find? (fun o =>
        o.share_id == sid && o.user_id == u.user_id && !o.is_verified &&
        decide (t3 < o.expiry_time) && (o.otp_code == toString (100000 + rand % 900000)))
        (List.map (fun o => if o.otp_id == st.nextOtpId then { o with is_verified := true } else o)
          ({ otp_id := st.nextOtpId, user_id := u.user_id, share_id := sid,
             otp_code := toString (100000 + rand % 900000),
             expiry_time := t0 + ttl * 60, is_verified := false,
             created_at := t0 } :: st.otps)) = none := by
      rw [List.find?_eq_none]
      intro x hx
      rw [List.map_cons] at hx
      rcases List.mem_cons.mp hx with rfl | hx'
      · simp
      · obtain ⟨o, ho, rfl⟩ := List.mem_map.mp hx'
        by_cases hid : (o.otp_id == st.nextOtpId) = true
        · simp [hid]
        · simp only [Bool.not_eq_true] at hid
          simp only [hid, Bool.false_eq_true, if_false]
          intro hcontra
          simp only [Bool.and_eq_true, beq_iff_eq, Bool.not_eq_true',
            decide_eq_true_eq] at hcontra
          obtain ⟨⟨⟨⟨hsido, huido⟩, hunver⟩, hexpo⟩, hcode⟩ := hcontra
          have hact : hasActiveOtp st.otps u.user_id sid t0 = true := by
            unfold hasActiveOtp
            rw [List.any_eq_true]
            refine ⟨o, ho, ?_⟩
            simp [huido, hsido, hunver]
            omega
          rw [hact] at hnoact
          cases hnoact
    rw [hnone]

/-- Witness for C5 on the concrete private share: send at 5, verify the
issued code 100007 at 9, gain view and download at 20, row kept verified,
and the code is refused at 700 (past its expiry 605). -/
theorem c5_witness :
    (otpSend fixStPriv 5 200 "alice@x.com" 7 10).1 = .sent 7 605 ∧
    (otpVerify (otpSend fixStPriv 5 200 "alice@x.com" 7 10).2 9 200 "alice@x.com"
      "100007").1 = .ok ∧
    resolveAccess
      (otpVerify (otpSend fixStPriv 5 200 "alice@x.com" 7 10).2 9 200 "alice@x.com"
        "100007").2 20 none "tokpriv" "alice@x.com" 10 = .privateShare 2 fixPriv ∧
    viewDocument
      (otpVerify (otpSend fixStPriv 5 200 "alice@x.com" 7 10).2 9 200 "alice@x.com"
        "100007").2 20 none "tokpriv" "alice@x.com" 10 =
      .allowed (.privateShare 2 fixPriv) ∧
    downloadDocument
      (otpVerify (otpSend fixStPriv 5 200 "alice@x.com" 7 10).2 9 200 "alice@x.com"
        "100007").2 20 none "tokpriv" "alice@x.com" 10 =
      .allowed (.privateShare 2 fixPriv) ∧
    (otpVerify
      (otpVerify (otpSend fixStPriv 5 200 "alice@x.com" 7 10).2 9 200 "alice@x.com"
        "100007").2 700 200 "alice@x.com" "100007").1 = .errInvalidOrExpired := by
  have h := c5_otp_round_trip fixStPriv 5 9 20 700 200 fixPriv ⟨2, "alice@x.com"⟩
    ⟨10, 1⟩ "alice@x.com" 7 10 none
    (by decide) (by decide) (by decide) (by decide) rfl rfl
    (by intro t ht; cases ht) (by intro t ht; cases ht)
    (by decide) (by decide) rfl (by decide) (by decide) (by decide) (by decide)
    (by decide) (by decide)
  exact ⟨h.1, h.2.1, h.2.2.2.1, h.2.2.2.2.1, h.2.2.2.2.2.1, h.2.2.2.2.2.2.2⟩

end QRDocs
